import Mathlib

/-!
Shallow embedding of `src/pylenium/webdriver_factory.py` (pyleniumio): a factory
that builds WebDriver sessions, either locally (spawning a browser-specific
driver with a resolved options object) or remotely (connecting to a grid with
resolved capabilities and options).

Python values are modelled as follows: capability values become `PyVal`
(string or boolean scalars), Python dicts become insertion-ordered association
lists (`Dict`) with Python `d[k] = v` update semantics (`dictSet`), fallible
code returns `Except PyError`, and Python truthiness of optional lists and
dicts is matched by pattern matching on emptiness.
-/

namespace Pylenium

/-- A Python scalar value, as used for capability values. -/
inductive PyVal
| vstr (s : String)
| vbool (b : Bool)
deriving DecidableEq, Repr

/-- A Python dict with string keys, as an insertion-ordered association list. -/
abbrev Dict := List (String × PyVal)

/-- Python `d[key] = v`: update in place if the key is present, else append. -/
def dictSet : Dict → String → PyVal → Dict
| [], key, v => [(key, v)]
| (k0, v0) :: rest, key, v =>
    if k0 = key then (k0, v) :: rest else (k0, v0) :: dictSet rest key v

/-- Python `d.get(key)`. -/
def dictGet : Dict → String → Option PyVal
| [], _ => Option.none
| (k0, v0) :: rest, key => if k0 = key then some v0 else dictGet rest key

/-- Python exceptions raised by the factory code. -/
inductive PyError
| valueError (msg : String)
| attributeError (msg : String)
deriving DecidableEq, Repr

/-- The `capabilities` argument actually reaching `build_options` at runtime:
`None`, a list of dicts (the annotated type), or — from `build_remote`'s
default branch — a plain dict. -/
inductive PyCaps
| none
| list (l : List Dict)
| dict (d : Dict)
deriving DecidableEq, Repr

/-- The `Browser` class of string constants (`webdriver_factory.py:14-19`). -/
def Browser.CHROME : String := "chrome"

def Browser.EDGE : String := "edge"

def Browser.FIREFOX : String := "firefox"

def Browser.IE : String := "ie"

def Browser.OPERA : String := "opera"

/-- Python `str.lower()`, modelled character-wise over the string's
characters (the browser names involved are ASCII). -/
def lower (s : String) : String := String.mk (s.data.map Char.toLower)

/-- The five recognized browser-kind literals. -/
def supported_browsers : List String :=
  [Browser.CHROME, Browser.EDGE, Browser.FIREFOX, Browser.IE, Browser.OPERA]

/-- The shape of the selenium options object selected by `build_options`;
Opera shares `ChromeOptions` with Chrome (`webdriver_factory.py:40-41`). -/
inductive OptionsShape
| chromeOptions
| firefoxOptions
| ieOptions
| edgeOptions
deriving DecidableEq, Repr

/-- The resolved options object: the selected shape, the accumulated
`add_argument` list, and the capability overrides set via `set_capability`. -/
structure ResolvedOptions where
  shape : OptionsShape
  arguments : List String
  caps : Dict
deriving DecidableEq, Repr

/-- The documentation-pointer suffix of the unsupported-browser error message
(`webdriver_factory.py:45` and `:82`). -/
def docPointer : String :=
  " is not supported. https://elsnoman.gitbook.io/pylenium/configuration/driver"

/-- The options-shape dispatch of `build_options` (`webdriver_factory.py:34-45`)
on the already lower-cased browser name. -/
def shapeFor (browser : String) : Option OptionsShape :=
  if browser = Browser.CHROME then some OptionsShape.chromeOptions
  else if browser = Browser.FIREFOX then some OptionsShape.firefoxOptions
  else if browser = Browser.IE then some OptionsShape.ieOptions
  else if browser = Browser.OPERA then some OptionsShape.chromeOptions
  else if browser = Browser.EDGE then some OptionsShape.edgeOptions
  else Option.none

/-- The capability loop of `build_options` (`webdriver_factory.py:51-53`):
each element must destructure as exactly one key/value pair
(`(key, value), = cap.items()`), applied via `set_capability` in order. -/
def apply_caps : Dict → List Dict → Except PyError Dict
| store, [] => Except.ok store
| store, [(key, v)] :: rest => apply_caps (dictSet store key v) rest
| _, [] :: _ =>
    Except.error (PyError.valueError "not enough values to unpack, expected 1, got 0")
| _, (_ :: _ :: _) :: _ =>
    Except.error (PyError.valueError "too many values to unpack, expected 1")

/-- The `if capabilities:` block of `build_options` (`webdriver_factory.py:50-53`),
for each runtime shape of the argument. A falsy argument (absent or empty) is
skipped; a list is destructured element by element; a non-empty plain dict is
iterated over its string keys, and calling `.items()` on the first key string
raises AttributeError. -/
def resolve_caps : PyCaps → Except PyError Dict
| PyCaps.none => Except.ok []
| PyCaps.list [] => Except.ok []
| PyCaps.list (c :: cs) => apply_caps [] (c :: cs)
| PyCaps.dict [] => Except.ok []
| PyCaps.dict (_ :: _) =>
    Except.error (PyError.attributeError "str object has no attribute items")

/-- `build_options` (`webdriver_factory.py:22-55`): lower-case the browser name,
select the options shape (raising ValueError with the documentation pointer for
an unrecognized name), add each option string as a `--`-prefixed argument in
order, then apply the capabilities. -/
def build_options (browser : String) (browser_options : List String)
    (capabilities : PyCaps) : Except PyError ResolvedOptions :=
  match shapeFor (lower browser) with
  | Option.none =>
      Except.error (PyError.valueError (lower browser ++ docPointer))
  | some shape =>
      match resolve_caps capabilities with
      | Except.error e => Except.error e
      | Except.ok store =>
          Except.ok
            { shape := shape
              arguments := browser_options.map (fun o => "--" ++ o)
              caps := store }

/-- Modelled external default-capability table (selenium
`DesiredCapabilities.CHROME`): the Chromium baseline of browser name, version
and platform markers, per the spec's Default Capability Table. -/
def DesiredCapabilities.CHROME : Dict :=
  [("browserName", PyVal.vstr "chrome"), ("version", PyVal.vstr ""),
   ("platform", PyVal.vstr "ANY")]

/-- Modelled external default-capability table (selenium
`DesiredCapabilities.FIREFOX`). -/
def DesiredCapabilities.FIREFOX : Dict :=
  [("browserName", PyVal.vstr "firefox"), ("marionette", PyVal.vbool true),
   ("acceptInsecureCerts", PyVal.vbool true)]

/-- Modelled external default-capability table (selenium
`DesiredCapabilities.INTERNETEXPLORER`). -/
def DesiredCapabilities.INTERNETEXPLORER : Dict :=
  [("browserName", PyVal.vstr "internet explorer"), ("version", PyVal.vstr ""),
   ("platform", PyVal.vstr "WINDOWS")]

/-- Modelled external default-capability table (selenium
`DesiredCapabilities.OPERA`). -/
def DesiredCapabilities.OPERA : Dict :=
  [("browserName", PyVal.vstr "opera"), ("version", PyVal.vstr ""),
   ("platform", PyVal.vstr "ANY")]

/-- Modelled external default-capability table (selenium
`DesiredCapabilities.EDGE`). -/
def DesiredCapabilities.EDGE : Dict :=
  [("browserName", PyVal.vstr "MicrosoftEdge"), ("version", PyVal.vstr ""),
   ("platform", PyVal.vstr "ANY")]

/-- The per-browser default dict copied by `build_remote`
(`webdriver_factory.py:169-180`) for an already lower-cased browser name;
an unrecognized name degrades to the empty dict. -/
def remote_default_caps (browser : String) : Dict :=
  if browser = Browser.CHROME then DesiredCapabilities.CHROME
  else if browser = Browser.FIREFOX then DesiredCapabilities.FIREFOX
  else if browser = Browser.IE then DesiredCapabilities.INTERNETEXPLORER
  else if browser = Browser.OPERA then DesiredCapabilities.OPERA
  else if browser = Browser.EDGE then DesiredCapabilities.EDGE
  else []

/-- The `caps` value of `build_remote` after `if capabilities: caps = capabilities`
(`webdriver_factory.py:169-183`): the caller-supplied list when truthy
(non-`None` and non-empty), else the per-browser default dict. -/
def remote_baseline (browser : String) (capabilities : Option (List Dict)) : PyCaps :=
  match capabilities with
  | some (c :: cs) => PyCaps.list (c :: cs)
  | _ => PyCaps.dict (remote_default_caps browser)

/-- Baseline capability defaults for an options shape; used by the modelled
flattening `to_capabilities`. -/
def shape_default_caps : OptionsShape → Dict
| OptionsShape.chromeOptions => DesiredCapabilities.CHROME
| OptionsShape.firefoxOptions => DesiredCapabilities.FIREFOX
| OptionsShape.ieOptions => DesiredCapabilities.INTERNETEXPLORER
| OptionsShape.edgeOptions => DesiredCapabilities.EDGE

/-- Modelled from the spec: the flattened capability form of a resolved options
object (the external selenium `Options.to_capabilities`), taken as the per-kind
default capability baseline with the object's capability overrides applied in
order. -/
def to_capabilities (o : ResolvedOptions) : Dict :=
  o.caps.foldl (fun d p => dictSet d p.1 p.2) (shape_default_caps o.shape)

/-- Modelled external binary-provisioning collaborator (webdriver_manager
`ChromeDriverManager(version).install()`): the filesystem path of the
installed driver binary. -/
def ChromeDriverManager.install (version : String) : String :=
  "/drivers/chrome/" ++ version

/-- Modelled external binary-provisioning collaborator (webdriver_manager
`GeckoDriverManager(version).install()`). -/
def GeckoDriverManager.install (version : String) : String :=
  "/drivers/firefox/" ++ version

/-- Modelled external binary-provisioning collaborator (webdriver_manager
`IEDriverManager(version).install()`). -/
def IEDriverManager.install (version : String) : String :=
  "/drivers/ie/" ++ version

/-- Modelled external binary-provisioning collaborator (webdriver_manager
`OperaDriverManager(version).install()`). -/
def OperaDriverManager.install (version : String) : String :=
  "/drivers/opera/" ++ version

/-- Modelled external binary-provisioning collaborator (webdriver_manager
`EdgeChromiumDriverManager(version).install()`). -/
def EdgeChromiumDriverManager.install (version : String) : String :=
  "/drivers/edge/" ++ version

/-- A constructed WebDriver session, recording the construction path and the
parameters handed to the underlying driver constructor: local builders pass
the resolved options object (Edge passes a flattened capability dict instead,
`webdriver_factory.py:111`), the remote builder passes the grid URL, the
desired capabilities and the options (`webdriver_factory.py:187-191`). -/
inductive Session
| localChrome (executable_path : String) (options : ResolvedOptions)
| localFirefox (executable_path : String) (options : ResolvedOptions)
| localIe (executable_path : String) (options : ResolvedOptions)
| localOpera (executable_path : String) (options : ResolvedOptions)
| localEdge (executable_path : String) (capabilities : Dict)
| remote (command_executor : String) (desired_capabilities : PyCaps)
    (options : ResolvedOptions)
deriving DecidableEq, Repr

/-- The `desired_capabilities` a remote session was constructed with. -/
def Session.desiredCaps : Session → Option PyCaps
| Session.remote _ caps _ => some caps
| _ => Option.none

/-- The capability store of the resolved options object a session was
constructed from, where the session carries one. -/
def Session.resolverCaps : Session → Option Dict
| Session.localChrome _ o => some o.caps
| Session.localFirefox _ o => some o.caps
| Session.localIe _ o => some o.caps
| Session.localOpera _ o => some o.caps
| Session.localEdge _ _ => Option.none
| Session.remote _ _ o => some o.caps

/-- `build_chrome` (`webdriver_factory.py:85-96`). -/
def build_chrome (version : String) (browser_options : List String) :
    Except PyError Session :=
  match build_options "chrome" browser_options PyCaps.none with
  | Except.error e => Except.error e
  | Except.ok options =>
      Except.ok (Session.localChrome (ChromeDriverManager.install version) options)

/-- Lift the optional capability list of `build_edge` / `build_from_config`
into the runtime shape reaching `build_options`. -/
def pyCapsOf : Option (List Dict) → PyCaps
| Option.none => PyCaps.none
| some l => PyCaps.list l

/-- `build_edge` (`webdriver_factory.py:99-111`): resolves options with the
caller-supplied capabilities and passes `options.to_capabilities()` — a
flattened capability dict, not the options object — to the Edge driver. -/
def build_edge (version : String) (browser_options : List String)
    (capabilities : Option (List Dict)) : Except PyError Session :=
  match build_options "edge" browser_options (pyCapsOf capabilities) with
  | Except.error e => Except.error e
  | Except.ok options =>
      Except.ok (Session.localEdge (EdgeChromiumDriverManager.install version)
        (to_capabilities options))

/-- `build_firefox` (`webdriver_factory.py:114-125`). -/
def build_firefox (version : String) (browser_options : List String) :
    Except PyError Session :=
  match build_options "firefox" browser_options PyCaps.none with
  | Except.error e => Except.error e
  | Except.ok options =>
      Except.ok (Session.localFirefox (GeckoDriverManager.install version) options)

/-- `build_ie` (`webdriver_factory.py:128-139`). -/
def build_ie (version : String) (browser_options : List String) :
    Except PyError Session :=
  match build_options "ie" browser_options PyCaps.none with
  | Except.error e => Except.error e
  | Except.ok options =>
      Except.ok (Session.localIe (IEDriverManager.install version) options)

/-- `build_opera` (`webdriver_factory.py:142-153`). -/
def build_opera (version : String) (browser_options : List String) :
    Except PyError Session :=
  match build_options "opera" browser_options PyCaps.none with
  | Except.error e => Except.error e
  | Except.ok options =>
      Except.ok (Session.localOpera (OperaDriverManager.install version) options)

/-- `build_remote` (`webdriver_factory.py:156-191`): lower-case the browser,
pick the capability baseline (caller capabilities if truthy, else the
per-browser default dict, else `{}`), resolve options with that baseline, and
construct the remote session with the baseline and the options. -/
def build_remote (browser remote_url : String) (browser_options : List String)
    (capabilities : Option (List Dict)) : Except PyError Session :=
  match build_options (lower browser) browser_options
      (remote_baseline (lower browser) capabilities) with
  | Except.error e => Except.error e
  | Except.ok options =>
      Except.ok (Session.remote remote_url
        (remote_baseline (lower browser) capabilities) options)

/-- Modelled from the spec: the `DriverConfig` record produced by
`pylenium/config.py` (not under src): browser name, version, remote URL
(empty meaning local mode), option strings and an optional capability list. -/
structure DriverConfig where
  browser : String
  version : String
  remote_url : String
  options : List String
  capabilities : Option (List Dict)
deriving DecidableEq, Repr

/-- Modelled from the spec: the `PyleniumConfig` wrapper around the driver
configuration (`pylenium/config.py` is not under src). -/
structure PyleniumConfig where
  driver : DriverConfig
deriving DecidableEq, Repr

/-- `build_from_config` (`webdriver_factory.py:58-82`): route to `build_remote`
when `remote_url` is truthy, else dispatch on the lower-cased browser name to
one of the five local builders, raising ValueError (with the original-case
name and documentation pointer) for an unrecognized name. -/
def build_from_config (config : PyleniumConfig) : Except PyError Session :=
  if config.driver.remote_url ≠ "" then
    build_remote config.driver.browser config.driver.remote_url
      config.driver.options config.driver.capabilities
  else if lower config.driver.browser = Browser.CHROME then
    build_chrome config.driver.version config.driver.options
  else if lower config.driver.browser = Browser.FIREFOX then
    build_firefox config.driver.version config.driver.options
  else if lower config.driver.browser = Browser.IE then
    build_ie config.driver.version config.driver.options
  else if lower config.driver.browser = Browser.OPERA then
    build_opera config.driver.version config.driver.options
  else if lower config.driver.browser = Browser.EDGE then
    build_edge config.driver.version config.driver.options
      config.driver.capabilities
  else
    Except.error (PyError.valueError (config.driver.browser ++ docPointer))

/-! ## Helper lemmas -/

theorem char_toNat_ofNat_valid (n : Nat) (h : n.isValidChar) :
    (Char.ofNat n).toNat = n := by
  rw [Char.ofNat, dif_pos h]
  rfl

theorem char_toLower_idem (c : Char) :
    Char.toLower (Char.toLower c) = Char.toLower c := by
  simp only [Char.toLower]
  by_cases h : c.toNat ≥ 65 ∧ c.toNat ≤ 90
  · rw [if_pos h]
    have hv : (c.toNat + 32).isValidChar := Or.inl (by omega)
    rw [char_toNat_ofNat_valid _ hv, if_neg (by omega)]
  · rw [if_neg h, if_neg h]

theorem lower_idem (s : String) : lower (lower s) = lower s := by
  simp only [lower, List.map_map]
  congr 1
  exact List.map_congr_left (fun c _ => char_toLower_idem c)

/-- Unfolded shape of non-membership in the five supported literals. -/
theorem not_supported_iff (b : String) :
    b ∉ supported_browsers ↔
      b ≠ Browser.CHROME ∧ b ≠ Browser.EDGE ∧ b ≠ Browser.FIREFOX ∧
      b ≠ Browser.IE ∧ b ≠ Browser.OPERA := by
  simp only [supported_browsers, List.mem_cons, List.not_mem_nil, or_false,
    not_or]

theorem shapeFor_eq_none_of_not_mem {b : String} (h : b ∉ supported_browsers) :
    shapeFor b = Option.none := by
  obtain ⟨h1, h2, h3, h4, h5⟩ := (not_supported_iff b).mp h
  simp [shapeFor, h1, h2, h3, h4, h5]

theorem remote_default_caps_eq_nil_of_not_mem {b : String}
    (h : b ∉ supported_browsers) : remote_default_caps b = [] := by
  obtain ⟨h1, h2, h3, h4, h5⟩ := (not_supported_iff b).mp h
  simp [remote_default_caps, h1, h2, h3, h4, h5]

/-- An unrecognized (lower-cased) browser name makes `build_options` raise the
unsupported-browser ValueError. -/
theorem build_options_unrecognized {b : String} (o : List String) (c : PyCaps)
    (h : shapeFor (lower b) = Option.none) :
    build_options b o c
      = Except.error (PyError.valueError (lower b ++ docPointer)) := by
  rw [build_options, h]

/-- A successful `build_options` with an absent capability set leaves the
capability store empty. -/
theorem build_options_none_caps {b : String} {o : List String}
    {r : ResolvedOptions} (h : build_options b o PyCaps.none = Except.ok r) :
    r.caps = [] := by
  rw [build_options] at h
  cases hs : shapeFor (lower b) with
  | none => rw [hs] at h; exact absurd h (by simp)
  | some shape =>
      rw [hs] at h
      simp only [resolve_caps] at h
      injection h with h
      rw [← h]

/-- A successful `build_options` maps each option string to a `--`-prefixed
argument, in order. -/
theorem build_options_arguments {b : String} {o : List String} {c : PyCaps}
    {r : ResolvedOptions} (h : build_options b o c = Except.ok r) :
    r.arguments = o.map (fun a => "--" ++ a) := by
  rw [build_options] at h
  cases hs : shapeFor (lower b) with
  | none => rw [hs] at h; exact absurd h (by simp)
  | some shape =>
      rw [hs] at h
      cases hc : resolve_caps c with
      | error e => rw [hc] at h; exact absurd h (by simp)
      | ok store =>
          rw [hc] at h
          injection h with h
          rw [← h]

/-- The `set_capability` step used to fold the capability entries. -/
def capStep (d : Dict) (p : String × PyVal) : Dict := dictSet d p.1 p.2

theorem dictGet_dictSet (d : Dict) (key : String) (v : PyVal) (q : String) :
    dictGet (dictSet d key v) q = if q = key then some v else dictGet d q := by
  induction d with
  | nil =>
      by_cases h : q = key
      · simp [dictSet, dictGet, h]
      · simp [dictSet, dictGet, h, Ne.symm h]
  | cons p rest ih =>
      obtain ⟨k0, v0⟩ := p
      by_cases h0 : k0 = key
      · subst h0
        by_cases h : q = k0
        · simp [dictSet, dictGet, h]
        · simp [dictSet, dictGet, h, Ne.symm h]
      · by_cases h : k0 = q
        · subst h
          simp [dictSet, dictGet, h0, Ne.symm h0]
        · simp [dictSet, dictGet, h0, h, ih]

/-- A successful capability loop is the fold of `set_capability` over the
flattened single-entry dicts. -/
theorem apply_caps_ok (l : List Dict) :
    ∀ store d, apply_caps store l = Except.ok d →
      d = l.flatten.foldl capStep store := by
  induction l with
  | nil =>
      intro store d h
      injection h with h
      rw [h, List.flatten_nil, List.foldl_nil]
  | cons cap rest ih =>
      intro store d h
      match cap with
      | [] => exact absurd h (by simp [apply_caps])
      | [(key, v)] =>
          rw [apply_caps] at h
          rw [ih _ _ h]
          simp [capStep, List.foldl_cons]
      | (p1 :: p2 :: t) => exact absurd h (by simp [apply_caps])

/-- Looking a key up after folding `set_capability` over a list of entries
finds the value of the last entry with that key, else falls back to the
initial store. -/
theorem dictGet_foldl (entries : List (String × PyVal)) :
    ∀ (store : Dict) (k : String),
      dictGet (entries.foldl capStep store) k =
        match entries.reverse.find? (fun p => p.1 == k) with
        | some p => some p.2
        | Option.none => dictGet store k := by
  induction entries with
  | nil => intro store k; simp
  | cons p rest ih =>
      intro store k
      rw [List.foldl_cons, ih, List.reverse_cons, List.find?_append]
      cases hf : rest.reverse.find? (fun q => q.1 == k) with
      | some q => simp [hf]
      | none =>
          simp only [hf, Option.none_or]
          by_cases h : p.1 = k
          · simp [List.find?, h, capStep, dictGet_dictSet]
          · have hb : (p.1 == k) = false := beq_eq_false_iff_ne.mpr h
            simp [List.find?, hb, capStep, dictGet_dictSet, Ne.symm h]

/-- If any capability element is not a single-entry dict, the capability loop
raises a ValueError. -/
theorem apply_caps_bad (l : List Dict) :
    ∀ store, (∃ cap ∈ l, cap.length ≠ 1) →
      ∃ msg, apply_caps store l = Except.error (PyError.valueError msg) := by
  induction l with
  | nil =>
      intro store h
      obtain ⟨cap, hmem, _⟩ := h
      exact absurd hmem (List.not_mem_nil cap)
  | cons cap rest ih =>
      intro store h
      match cap with
      | [] => exact ⟨_, rfl⟩
      | [(key, v)] =>
          obtain ⟨c, hmem, hlen⟩ := h
          rcases List.mem_cons.mp hmem with hc | hc
          · rw [hc] at hlen; simp at hlen
          · exact ih (dictSet store key v) ⟨c, hc, hlen⟩
      | (p1 :: p2 :: t) => exact ⟨_, rfl⟩

/-- A successful `build_chrome` carries a resolved options object with an
empty capability store. -/
theorem build_chrome_resolverCaps {v : String} {o : List String} {s : Session}
    (h : build_chrome v o = Except.ok s) : Session.resolverCaps s = some [] := by
  rw [build_chrome] at h
  cases hb : build_options "chrome" o PyCaps.none with
  | error e => rw [hb] at h; exact absurd h (by simp)
  | ok r =>
      rw [hb] at h
      injection h with h
      rw [← h]
      simp [Session.resolverCaps, build_options_none_caps hb]

/-- A successful `build_firefox` carries a resolved options object with an
empty capability store. -/
theorem build_firefox_resolverCaps {v : String} {o : List String} {s : Session}
    (h : build_firefox v o = Except.ok s) : Session.resolverCaps s = some [] := by
  rw [build_firefox] at h
  cases hb : build_options "firefox" o PyCaps.none with
  | error e => rw [hb] at h; exact absurd h (by simp)
  | ok r =>
      rw [hb] at h
      injection h with h
      rw [← h]
      simp [Session.resolverCaps, build_options_none_caps hb]

/-- A successful `build_ie` carries a resolved options object with an empty
capability store. -/
theorem build_ie_resolverCaps {v : String} {o : List String} {s : Session}
    (h : build_ie v o = Except.ok s) : Session.resolverCaps s = some [] := by
  rw [build_ie] at h
  cases hb : build_options "ie" o PyCaps.none with
  | error e => rw [hb] at h; exact absurd h (by simp)
  | ok r =>
      rw [hb] at h
      injection h with h
      rw [← h]
      simp [Session.resolverCaps, build_options_none_caps hb]

/-- A successful `build_opera` carries a resolved options object with an empty
capability store. -/
theorem build_opera_resolverCaps {v : String} {o : List String} {s : Session}
    (h : build_opera v o = Except.ok s) : Session.resolverCaps s = some [] := by
  rw [build_opera] at h
  cases hb : build_options "opera" o PyCaps.none with
  | error e => rw [hb] at h; exact absurd h (by simp)
  | ok r =>
      rw [hb] at h
      injection h with h
      rw [← h]
      simp [Session.resolverCaps, build_options_none_caps hb]

/-! ## Claims -/

/-- C1, counterexample: in remote mode with the unrecognized kind `safari`
(and `remoteUrl` set), session construction does not proceed — it raises the
unsupported-browser ValueError from the Options Resolver, refuting the claim
that construction never raises `UnsupportedBrowserKind` in remote mode. -/
theorem c1_counterexample :
    build_remote "safari" "http://localhost:4444/wd/hub" [] Option.none
      = Except.error (PyError.valueError ("safari" ++ docPointer)) := rfl

/-- C1, amended: in remote mode with an unrecognized browser kind and no
caller capabilities, the capability-baseline selection itself tolerates the
kind and degrades to the empty baseline, but the subsequent Options Resolver
call raises the unsupported-browser ValueError, so session construction as a
whole raises it. -/
theorem c1_amended_remote_unrecognized (browser url : String)
    (opts : List String) (h : lower browser ∉ supported_browsers) :
    remote_baseline (lower browser) Option.none = PyCaps.dict []
    ∧ build_remote browser url opts Option.none
        = Except.error (PyError.valueError (lower browser ++ docPointer)) := by
  have hdef := remote_default_caps_eq_nil_of_not_mem h
  have hb : remote_baseline (lower browser) Option.none
      = PyCaps.dict (remote_default_caps (lower browser)) := rfl
  refine ⟨by rw [hb, hdef], ?_⟩
  have hopt : build_options (lower browser) opts
      (remote_baseline (lower browser) Option.none)
      = Except.error (PyError.valueError (lower (lower browser) ++ docPointer)) :=
    build_options_unrecognized _ _
      (by rw [lower_idem]; exact shapeFor_eq_none_of_not_mem h)
  simp only [build_remote, hopt]
  rw [lower_idem]

/-- C1, witness for the amended theorem at the concrete input `Safari`. -/
theorem c1_witness :
    remote_baseline (lower "Safari") Option.none = PyCaps.dict []
    ∧ build_remote "Safari" "http://localhost:4444/wd/hub" ["headless"]
        Option.none
        = Except.error (PyError.valueError (lower "Safari" ++ docPointer)) :=
  c1_amended_remote_unrecognized "Safari" "http://localhost:4444/wd/hub"
    ["headless"] (by decide)

/-- C2, counterexample: in local mode with kind = edge, the builder passes the
caller-supplied capability through to the Options Resolver, so the constructed
session's capability map contains it — refuting the claim that every local
builder calls the resolver with no capability set. -/
theorem c2_counterexample :
    build_from_config
      { driver :=
        { browser := "edge", version := "latest", remote_url := "",
          options := [],
          capabilities := some [[("platformName", PyVal.vstr "linux")]] } }
      = Except.ok (Session.localEdge "/drivers/edge/latest"
          [("browserName", PyVal.vstr "MicrosoftEdge"),
           ("version", PyVal.vstr ""), ("platform", PyVal.vstr "ANY"),
           ("platformName", PyVal.vstr "linux")]) := rfl

/-- C2, amended: in local mode, for every recognized browser kind other than
Edge, the builder invokes the Options Resolver with no capability set, so the
resolved options object of the constructed session carries an empty capability
store regardless of the DriverConfig's capabilities field; the Edge builder
instead passes the config's capabilities through. -/
theorem c2_amended_local_no_caps (cfg : PyleniumConfig) (s : Session)
    (hlocal : cfg.driver.remote_url = "")
    (hrec : lower cfg.driver.browser ∈ supported_browsers)
    (hnedge : lower cfg.driver.browser ≠ Browser.EDGE)
    (hok : build_from_config cfg = Except.ok s) :
    Session.resolverCaps s = some [] := by
  rw [build_from_config, if_neg (by simp [hlocal])] at hok
  simp only [supported_browsers, List.mem_cons, List.not_mem_nil, or_false]
    at hrec
  rcases hrec with h | h | h | h | h
  · rw [if_pos h] at hok
    exact build_chrome_resolverCaps hok
  · exact absurd h hnedge
  · rw [if_neg (by rw [h]; decide), if_pos h] at hok
    exact build_firefox_resolverCaps hok
  · rw [if_neg (by rw [h]; decide), if_neg (by rw [h]; decide), if_pos h]
      at hok
    exact build_ie_resolverCaps hok
  · rw [if_neg (by rw [h]; decide), if_neg (by rw [h]; decide),
      if_neg (by rw [h]; decide), if_pos h] at hok
    exact build_opera_resolverCaps hok

/-- C2, configuration used by the witness: local Chrome with a non-empty
capabilities field. -/
def c2cfg : PyleniumConfig :=
  { driver :=
    { browser := "chrome", version := "latest", remote_url := "",
      options := ["headless"],
      capabilities := some [[("k", PyVal.vstr "v")]] } }

/-- C2, witness for the amended theorem: the local Chrome session built from a
config with a non-empty capabilities field carries an empty capability
store. -/
theorem c2_witness :
    Session.resolverCaps (Session.localChrome "/drivers/chrome/latest"
      { shape := OptionsShape.chromeOptions, arguments := ["--headless"],
        caps := [] }) = some [] :=
  c2_amended_local_no_caps c2cfg _ rfl (by decide) (by decide) rfl

/-- C3: in remote mode with kind = chrome and no caller capabilities, the
capability baseline equals `DesiredCapabilities.CHROME` exactly — but the
construction does not succeed through the Options Resolver: the baseline is a
plain dict, `build_options` iterates it as if it were a list of single-entry
dicts, and calling `.items()` on the first key string raises AttributeError.
This contradicts `build_options`' annotated parameter type
`Optional[List[dict]]` and the spec's remote path, so the code is at fault. -/
theorem c3_remote_default_crash :
    remote_baseline (lower "chrome") Option.none
      = PyCaps.dict DesiredCapabilities.CHROME
    ∧ build_remote "chrome" "http://localhost:4444/wd/hub" [] Option.none
        = Except.error
            (PyError.attributeError "str object has no attribute items") :=
  ⟨rfl, rfl⟩

/-- C4: in remote mode, a non-empty caller-supplied capability set replaces
the per-browser default set wholesale: the baseline equals exactly the caller
list, and the constructed remote session's desired capabilities are exactly
that list — no field-level merge with the defaults. -/
theorem c4_caller_caps_replace_defaults (browser url : String)
    (opts : List String) (c0 : Dict) (cs : List Dict) (s : Session)
    (hok : build_remote browser url opts (some (c0 :: cs)) = Except.ok s) :
    remote_baseline (lower browser) (some (c0 :: cs)) = PyCaps.list (c0 :: cs)
    ∧ Session.desiredCaps s = some (PyCaps.list (c0 :: cs)) := by
  refine ⟨rfl, ?_⟩
  rw [build_remote] at hok
  cases hb : build_options (lower browser) opts
      (remote_baseline (lower browser) (some (c0 :: cs))) with
  | error e => rw [hb] at hok; exact absurd hok (by simp)
  | ok r =>
      rw [hb] at hok
      injection hok with hok
      rw [← hok]
      rfl

/-- C4, witness at chrome with one caller capability. -/
theorem c4_witness :
    remote_baseline (lower "chrome")
        (some [[("browserName", PyVal.vstr "chrome")]])
      = PyCaps.list [[("browserName", PyVal.vstr "chrome")]]
    ∧ Session.desiredCaps (Session.remote "http://grid:4444/wd/hub"
        (PyCaps.list [[("browserName", PyVal.vstr "chrome")]])
        { shape := OptionsShape.chromeOptions, arguments := ["--headless"],
          caps := [("browserName", PyVal.vstr "chrome")] })
      = some (PyCaps.list [[("browserName", PyVal.vstr "chrome")]]) :=
  c4_caller_caps_replace_defaults "chrome" "http://grid:4444/wd/hub"
    ["headless"] _ [] _ rfl

/-- C5: for every recognized browser kind, a successfully resolved options
object's argument list equals the input option strings each prefixed with
`--`, in the original order; duplicates are preserved because `List.map`
preserves length and order. -/
theorem c5_arguments_order (browser : String) (opts : List String)
    (caps : PyCaps) (r : ResolvedOptions)
    (hrec : lower browser ∈ supported_browsers)
    (hok : build_options browser opts caps = Except.ok r) :
    r.arguments = opts.map (fun a => "--" ++ a) :=
  build_options_arguments hok

/-- C5, witness at a duplicated option string. -/
theorem c5_witness :
    ResolvedOptions.arguments
      { shape := OptionsShape.chromeOptions,
        arguments := ["--headless", "--headless"], caps := [] }
      = ["headless", "headless"].map (fun a => "--" ++ a) :=
  c5_arguments_order "chrome" ["headless", "headless"] PyCaps.none _
    (by decide) rfl

/-- C6: for a capability sequence whose flattened entries repeat a key, the
resolved options object's capability store maps that key to the value of the
last occurrence (last-write-wins application order). -/
theorem c6_last_write_wins (browser : String) (opts : List String)
    (l : List Dict) (r : ResolvedOptions) (k : String) (v : PyVal)
    (hok : build_options browser opts (PyCaps.list l) = Except.ok r)
    (hdup : 2 ≤ (l.flatten.filter (fun p => p.1 == k)).length)
    (hlast : (l.flatten.reverse.find? (fun p => p.1 == k)).map Prod.snd
      = some v) :
    dictGet r.caps k = some v := by
  rw [build_options] at hok
  cases hs : shapeFor (lower browser) with
  | none => rw [hs] at hok; exact absurd hok (by simp)
  | some shape =>
      rw [hs] at hok
      cases l with
      | nil => simp at hlast
      | cons c cs =>
          simp only [resolve_caps] at hok
          cases ha : apply_caps [] (c :: cs) with
          | error e => rw [ha] at hok; exact absurd hok (by simp)
          | ok store =>
              rw [ha] at hok
              injection hok with hok
              have hst : store = (c :: cs).flatten.foldl capStep [] :=
                apply_caps_ok _ _ _ ha
              rw [← hok]
              show dictGet store k = some v
              rw [hst, dictGet_foldl]
              cases hf : (c :: cs).flatten.reverse.find? (fun p => p.1 == k)
                with
              | none => rw [hf] at hlast; simp at hlast
              | some p =>
                  rw [hf] at hlast
                  simpa using hlast

/-- C6, witness: the key `a` set twice resolves to the second value. -/
theorem c6_witness :
    dictGet (ResolvedOptions.caps
      { shape := OptionsShape.chromeOptions, arguments := [],
        caps := [("a", PyVal.vstr "2")] }) "a" = some (PyVal.vstr "2") :=
  c6_last_write_wins "chrome" []
    [[("a", PyVal.vstr "1")], [("a", PyVal.vstr "2")]] _ "a" (PyVal.vstr "2")
    rfl (by decide) (by decide)

/-- C7: for every input whose lower-cased form is not one of the five
recognized literals, `build_options` raises the unsupported-browser ValueError
whose message names the (lower-cased) offending value and carries the
configuration-documentation pointer — it never returns a default kind; the
local dispatch of `build_from_config` raises the same error naming the
original-case value. -/
theorem c7_normalize_rejects (browser version : String) (opts : List String)
    (caps : PyCaps) (capsList : Option (List Dict))
    (h : lower browser ∉ supported_browsers) :
    build_options browser opts caps
      = Except.error (PyError.valueError (lower browser ++ docPointer))
    ∧ build_from_config
        { driver :=
          { browser := browser, version := version, remote_url := "",
            options := opts, capabilities := capsList } }
      = Except.error (PyError.valueError (browser ++ docPointer)) := by
  obtain ⟨h1, h2, h3, h4, h5⟩ := (not_supported_iff _).mp h
  refine ⟨build_options_unrecognized _ _ (shapeFor_eq_none_of_not_mem h), ?_⟩
  rw [build_from_config]
  rw [if_neg (by simp), if_neg h1, if_neg h3, if_neg h4, if_neg h5, if_neg h2]

/-- C7, witness at the concrete unrecognized input `Safari`. -/
theorem c7_witness :
    build_options "Safari" [] PyCaps.none
      = Except.error (PyError.valueError (lower "Safari" ++ docPointer))
    ∧ build_from_config
        { driver :=
          { browser := "Safari", version := "latest", remote_url := "",
            options := [], capabilities := Option.none } }
      = Except.error (PyError.valueError ("Safari" ++ docPointer)) :=
  c7_normalize_rejects "Safari" "latest" [] PyCaps.none Option.none (by decide)

/-- C8: in local mode with kind = edge, the capability map handed to the
constructed session is exactly the flattened capability form
(`to_capabilities`) of the resolved options object, rather than the options
object itself. -/
theorem c8_edge_flatten (version : String) (opts : List String)
    (capsList : Option (List Dict)) (r : ResolvedOptions)
    (hok : build_options "edge" opts (pyCapsOf capsList) = Except.ok r) :
    build_edge version opts capsList
      = Except.ok (Session.localEdge (EdgeChromiumDriverManager.install version)
          (to_capabilities r)) := by
  rw [build_edge, hok]

/-- C8, witness at a concrete local Edge construction. -/
theorem c8_witness :
    build_edge "latest" ["headless"] Option.none
      = Except.ok (Session.localEdge
          (EdgeChromiumDriverManager.install "latest")
          (to_capabilities
            { shape := OptionsShape.edgeOptions, arguments := ["--headless"],
              caps := [] })) :=
  c8_edge_flatten "latest" ["headless"] Option.none _ rfl

/-- C9: for every config with a non-empty remote URL, the Configuration
Adapter produces exactly the outcome of invoking the remote builder directly
with the config's extracted fields — a faithful pass-through. -/
theorem c9_adapter_pass_through (cfg : PyleniumConfig)
    (h : cfg.driver.remote_url ≠ "") :
    build_from_config cfg
      = build_remote cfg.driver.browser cfg.driver.remote_url
          cfg.driver.options cfg.driver.capabilities := by
  rw [build_from_config, if_pos h]

/-- C9, witness at a concrete remote config. -/
theorem c9_witness :
    build_from_config
      { driver :=
        { browser := "chrome", version := "latest",
          remote_url := "http://grid:4444/wd/hub", options := ["headless"],
          capabilities := some [[("browserName", PyVal.vstr "chrome")]] } }
      = build_remote "chrome" "http://grid:4444/wd/hub" ["headless"]
          (some [[("browserName", PyVal.vstr "chrome")]]) :=
  c9_adapter_pass_through _ (by decide)

/-- Whether an Options Resolver outcome is a raised ValueError. -/
def isValueError : Except PyError ResolvedOptions → Bool
| Except.error (PyError.valueError _) => true
| _ => false

/-- C10: for every recognized browser kind, if any element of a supplied
capability list has zero entries or two or more entries, the Options Resolver
raises a ValueError (the single-entry destructuring fails) instead of
returning a resolved object. -/
theorem c10_single_entry_required (browser : String) (opts : List String)
    (l : List Dict) (hrec : lower browser ∈ supported_browsers)
    (hbad : ∃ cap ∈ l, cap.length ≠ 1) :
    isValueError (build_options browser opts (PyCaps.list l)) = true := by
  have hsome : ∃ shape, shapeFor (lower browser) = some shape := by
    simp only [supported_browsers, List.mem_cons, List.not_mem_nil, or_false]
      at hrec
    rcases hrec with h | h | h | h | h
    · exact ⟨OptionsShape.chromeOptions, by rw [h]; decide⟩
    · exact ⟨OptionsShape.edgeOptions, by rw [h]; decide⟩
    · exact ⟨OptionsShape.firefoxOptions, by rw [h]; decide⟩
    · exact ⟨OptionsShape.ieOptions, by rw [h]; decide⟩
    · exact ⟨OptionsShape.chromeOptions, by rw [h]; decide⟩
  obtain ⟨shape, hs⟩ := hsome
  rw [build_options, hs]
  cases l with
  | nil =>
      obtain ⟨c, hc, _⟩ := hbad
      exact absurd hc (List.not_mem_nil c)
  | cons c cs =>
      simp only [resolve_caps]
      obtain ⟨msg, hm⟩ := apply_caps_bad (c :: cs) [] hbad
      rw [hm]
      rfl

/-- C10, witness at a zero-entry capability element. -/
theorem c10_witness :
    isValueError (build_options "chrome" [] (PyCaps.list [[]])) = true :=
  c10_single_entry_required "chrome" [] [[]] (by decide)
    ⟨[], by decide, by decide⟩

end Pylenium
